import Mathlib

/-!
# Verification of the Helios streaming-server core

Shallow embedding of `src/streaming-server.py` (the `DataGenerator` and
`StreamingServer` classes; `src/streaming-demo-server.py` contains a
byte-identical copy of the same logic).

Modelling conventions:
* Python floats are modelled as rationals (`ℚ`); `round(x, 2)` is modelled as
  round-half-to-even at two decimal places on `ℚ`.
* Calls to the entropy source (`random.uniform`, `random.gauss`, `time.time`)
  are modelled by passing the drawn values in as explicit inputs, so every
  function is a pure function of the generator state plus the draws.
* In-place mutation of a `DataGenerator` object is modelled by returning the
  updated state; a Python exception is modelled by `Except`.  Because an
  exception propagates after the mutations already performed, a state-mutating
  operation that can raise returns the mutated state together with an
  `Except` result.
-/

/-- Python exceptions that the embedded code can raise. -/
inductive PyErr where
  | attributeError
  | keyError
  deriving DecidableEq, Repr

/-! ## Rounding: Python `round(x, 2)`

Python 3 `round` uses round-half-to-even (banker's rounding).  We model it on
`ℚ`: round `x * 100` to the nearest integer, ties to even, then divide by 100.
-/

/-- Round a rational to the nearest integer, ties going to the even integer
(Python 3 `round(x)` semantics, with the float representation abstracted to an
exact rational). -/
def roundHalfEven (q : ℚ) : ℤ :=
  if q - ⌊q⌋ < 1/2 then ⌊q⌋
  else if 1/2 < q - ⌊q⌋ then ⌊q⌋ + 1
  else if ⌊q⌋ % 2 = 0 then ⌊q⌋ else ⌊q⌋ + 1

/-- Python `round(x, 2)`: round to 2 decimal places, ties to even. -/
def round2 (q : ℚ) : ℚ := (roundHalfEven (q * 100) : ℚ) / 100

lemma roundHalfEven_le {q : ℚ} {n : ℤ} (h : q ≤ (n : ℚ)) : roundHalfEven q ≤ n := by
  have hf : ⌊q⌋ ≤ n := by
    have h2 := Int.floor_le_floor h
    simpa using h2
  have hup : ¬ (q - ⌊q⌋ < 1/2) → ⌊q⌋ < n := by
    intro h1
    push_neg at h1
    have hlt : (⌊q⌋ : ℚ) < q := by linarith
    have : (⌊q⌋ : ℚ) < (n : ℚ) := lt_of_lt_of_le hlt h
    exact_mod_cast this
  unfold roundHalfEven
  split_ifs with h1 h2 h3
  · exact hf
  · have := hup h1; omega
  · exact hf
  · have := hup h1; omega

lemma le_roundHalfEven {q : ℚ} {n : ℤ} (h : (n : ℚ) ≤ q) : n ≤ roundHalfEven q := by
  have hf : n ≤ ⌊q⌋ := Int.le_floor.mpr h
  unfold roundHalfEven
  split_ifs <;> omega

/-- Evaluation rule for `round2` when the fractional part at two decimals is
below one half: if `z ≤ 100q < z + 1/2` then `round2 q = z / 100`. -/
lemma round2_eval_low (q : ℚ) (z : ℤ) (h1 : (z : ℚ) ≤ q * 100)
    (h2 : q * 100 < (z : ℚ) + 1/2) : round2 q = (z : ℚ) / 100 := by
  have hfloor : ⌊q * 100⌋ = z := by
    rw [Int.floor_eq_iff]
    exact ⟨h1, by linarith⟩
  unfold round2 roundHalfEven
  rw [hfloor, if_pos (show q * 100 - (z : ℚ) < 1/2 by linarith)]

lemma round2_le {q : ℚ} {n : ℤ} (h : q ≤ (n : ℚ)) : round2 q ≤ (n : ℚ) := by
  unfold round2
  have h100 : q * 100 ≤ ((n * 100 : ℤ) : ℚ) := by push_cast; linarith
  have := roundHalfEven_le h100
  have hle : ((roundHalfEven (q * 100) : ℤ) : ℚ) ≤ ((n * 100 : ℤ) : ℚ) := by exact_mod_cast this
  push_cast at hle ⊢
  linarith

lemma le_round2 {q : ℚ} {n : ℤ} (h : (n : ℚ) ≤ q) : (n : ℚ) ≤ round2 q := by
  unfold round2
  have h100 : ((n * 100 : ℤ) : ℚ) ≤ q * 100 := by push_cast; linarith
  have := le_roundHalfEven h100
  have hle : ((n * 100 : ℤ) : ℚ) ≤ ((roundHalfEven (q * 100) : ℤ) : ℚ) := by exact_mod_cast this
  push_cast at hle ⊢
  linarith

/-! ## DataGenerator (src/streaming-server.py lines 18-107) -/

/-- State of a `DataGenerator` object (`__init__`, lines 21-25).
`base_values` is the Python dict, modelled as an insertion-ordered
association list. -/
structure DataGenerator where
  source_type : String
  base_values : List (String × ℚ)
  trend : ℚ
  volatility : ℚ
  deriving DecidableEq, Repr

/-- One batch of draws from the entropy source consumed by a single
`generate_data_point` call.  `trendDelta` is the `random.uniform(-0.0001,
0.0001)` draw of line 73; `noise key` is the `random.gauss(0, volatility)`
draw of line 86 for that field; `nowSeconds` is `time.time()`; `quality` and
`anomalyScore` are the metadata draws of lines 103-104. -/
structure Entropy where
  trendDelta : ℚ
  nowSeconds : ℚ
  noise : String → ℚ
  quality : ℚ
  anomalyScore : ℚ

/-- `_init_base_values` (lines 27-65).  `u i` is the i-th `random.uniform`
draw made by the matched branch (e.g. for `stock`, `u 0` is the
`random.uniform(-20, 20)` draw added to 100.0). -/
def init_base_values (source_type : String) (u : ℕ → ℚ) : List (String × ℚ) :=
  if source_type = "stock" then
    [("price", 100 + u 0), ("volume", 1000000), ("market_cap", 1000000000)]
  else if source_type = "sensor" then
    [("temperature", 20 + u 0), ("humidity", 50 + u 1),
     ("pressure", 101325/100 + u 2), ("light", u 3)]
  else if source_type = "network" then
    [("bandwidth", u 0), ("latency", 10 + u 1), ("packets", u 2), ("errors", u 3)]
  else if source_type = "crypto" then
    [("price", 50000 + u 0), ("volume", u 1), ("market_cap", 1000000000000),
     ("dominance", u 2)]
  else if source_type = "weather" then
    [("temperature", 15 + u 0), ("humidity", 40 + u 1), ("wind_speed", u 2),
     ("pressure", 101325/100 + u 3), ("precipitation", u 4)]
  else
    [("value", 50)]

/-- `DataGenerator.__init__(source_type)` (lines 21-25): `t0` is the
`random.uniform(-0.001, 0.001)` draw for the initial trend; volatility is
fixed at 0.02. -/
def DataGenerator.init (source_type : String) (u : ℕ → ℚ) (t0 : ℚ) : DataGenerator :=
  { source_type := source_type
    base_values := init_base_values source_type u
    trend := t0
    volatility := 1/50 }

/-- Lines 73-74: `self.trend += random.uniform(-0.0001, 0.0001);
self.trend = max(-0.005, min(0.005, self.trend))`. -/
def trend_update (t delta : ℚ) : ℚ := max (-5/1000) (min (5/1000) (t + delta))

/-- Lines 89-95: the field-specific clamp applied to
`new_value = base_value * (1 + trend + seasonal + noise)`.  Reproduces the
`if`/`elif` chain exactly. -/
def clamp_policy (key : String) (base_value new_value : ℚ) : ℚ :=
  if key = "price" ∧ new_value < 0 then
    base_value * (1/10)
  else if (key = "humidity" ∨ key = "dominance") ∧ (new_value < 0 ∨ new_value > 100) then
    max 0 (min 100 new_value)
  else if key = "temperature" ∧ (new_value < -50 ∨ new_value > 60) then
    max (-50) (min 60 new_value)
  else
    new_value

/-- The body of the per-field loop (lines 85-98) as a pure function of the
draws, for one field: given the field name, its current base value, the shared
trend, and the values of the seasonal and noise terms, returns the pair
(emitted value of line 97, stored base of line 98).  (The spec names this
per-field operation `next_value`.) -/
def next_value (key : String) (base_value trend seasonal noise : ℚ) : ℚ × ℚ :=
  let new0 := base_value * (1 + trend + seasonal + noise)
  let new1 := clamp_policy key base_value new0
  (round2 new1, new1)

/-- The attribute `sin` looked up on the Python `random` module at line 85
(`random.sin(time.time() / 3600)`).  The standard-library `random` module
defines `uniform` and `gauss` but no `sin`; the lookup raises
`AttributeError`, so the attribute is `none`.  (`math.sin` was presumably
intended — `phase5-demo-server.py` uses `math.sin` for its seasonal term.) -/
def random_sin : Option (ℚ → ℚ) := none

/-- The per-field loop of `generate_data_point` (lines 83-98).  Walks the
`base_values` dict in order; for each field computes
`seasonal = 0.1 * random.sin(time.time() / 3600)` (line 85, which raises
`AttributeError` because `random.sin` does not exist), `noise`, `new_value`,
the clamp, and records the rounded emitted value (line 97) and the new stored
base (line 98).  Returns (new `base_values`, emitted key/value pairs). -/
def fields_loop (trend _volatility nowSeconds : ℚ) (noise : String → ℚ) :
    List (String × ℚ) → Except PyErr (List (String × ℚ) × List (String × ℚ))
  | [] => .ok ([], [])
  | (key, base_value) :: rest =>
    match random_sin with
    | none => .error .attributeError
    | some sinf =>
      let seasonal := (1/10) * sinf (nowSeconds / 3600)
      let n := noise key
      let new_value := clamp_policy key base_value (base_value * (1 + trend + seasonal + n))
      match fields_loop trend _volatility nowSeconds noise rest with
      | .error e => .error e
      | .ok (bases, emitted) =>
        .ok ((key, new_value) :: bases, (key, round2 new_value) :: emitted)

/-- The assembled data point (lines 76-105): emitted field values plus
metadata.  Timestamps are abstracted to the `nowSeconds` draw. -/
structure DataPoint where
  source : String
  data : List (String × ℚ)
  sequence : ℤ
  quality : ℚ
  anomalyScore : ℚ
  deriving DecidableEq, Repr

/-- `generate_data_point` (lines 67-107).  First mutates the trend
(lines 73-74), then runs the per-field loop; because the loop raises on its
first iteration (line 85, `random.sin`), the call returns the generator with
only the trend mutated, together with the raised exception.  On the
(unreachable for nonempty `base_values`) success path it assembles the data
point with metadata `sequence = int(time.time()*1000) % 1000000` (line 102). -/
def generate_data_point (g : DataGenerator) (e : Entropy) :
    DataGenerator × Except PyErr DataPoint :=
  let g1 : DataGenerator := { g with trend := trend_update g.trend e.trendDelta }
  match fields_loop g1.trend g.volatility e.nowSeconds e.noise g.base_values with
  | .error err => (g1, .error err)
  | .ok (bases, emitted) =>
    ({ g1 with base_values := bases },
     .ok { source := g.source_type
           data := emitted
           sequence := ⌊e.nowSeconds * 1000⌋ % 1000000
           quality := e.quality
           anomalyScore := e.anomalyScore })

/-- The generator state after a sequence of `generate_data_point` calls
(each call mutates the object in place; exceptions propagate to the caller
but the mutations already performed persist). -/
def generator_run (g : DataGenerator) (es : List Entropy) : DataGenerator :=
  es.foldl (fun g e => (generate_data_point g e).1) g

/-! ## StreamingServer (src/streaming-server.py lines 109-246)

Sessions (websocket connection handles) are modelled by natural numbers; the
connection registry `self.clients` is a `Finset ℕ`.  The values of the
`self.data_generators` dict are `DataGenerator` states (modelled above); the
protocol-level claims only depend on which source keys have a live generator,
so the server state tracks the ordered key list of that dict.  Timestamps
(`datetime.now().isoformat()`) are abstracted to a natural number supplied to
each handler. -/

/-- Mutable state of a `StreamingServer` that the message handlers touch:
the connection registry `self.clients` (line 115) and the keys of
`self.data_generators` (line 116). -/
structure ServerState where
  clients : Finset ℕ
  data_generators : List String
  deriving DecidableEq

/-- Outbound protocol messages (each carries a timestamp). -/
inductive OutMsg where
  | welcome (client_id : String) (clients_connected : ℕ) (ts : ℕ)
  | subscribed (source : String) (frequency : ℤ) (ts : ℕ)
  | unsubscribed (ts : ℕ)
  | pong (ts : ℕ)
  | error (message : String) (ts : ℕ)
  | data (source : String) (ts : ℕ)
  | server_stats (clients_connected : ℕ) (ts : ℕ)
  deriving DecidableEq, Repr

/-- An inbound payload, classified by how `json.loads` / attribute access on
the result behaves (lines 152-154):
* `notJson`: `json.loads` raises `json.JSONDecodeError`;
* `jsonNonObject`: valid JSON whose result is not a dict (a list, number,
  string, bool or null), so `data.get("type")` raises `AttributeError`;
* `jsonObject t s f`: a JSON object; `t`, `s`, `f` are the values of its
  `type`, `source` and `frequency` keys (absent keys are `none`, matching
  `dict.get` returning `None`). -/
inductive Payload where
  | notJson
  | jsonNonObject
  | jsonObject (type_ : Option String) (source : Option String) (frequency : Option ℤ)
  deriving DecidableEq, Repr

/-- Result of `handle_client_message`: the server state after the handler,
the messages it sent to the client before (or instead of) entering the
streaming loop, and — when the `subscribe` branch ran — the
(source, frequency) with which `start_streaming`'s data loop was entered. -/
structure HandleResult where
  state : ServerState
  sent : List OutMsg
  streaming : Option (String × ℤ)
  deriving DecidableEq

/-- `handle_client_message` (lines 150-188) together with the pre-loop part
of `start_streaming` (lines 190-200).
* `subscribe`: `source = data.get("source", "stock")`,
  `frequency = data.get("frequency", 500)`; a generator for the source is
  created if missing (lines 161-162); `start_streaming` sends the
  `subscribed` confirmation (lines 195-200) and then enters the data loop.
* `unsubscribe`: sends only the `unsubscribed` reply (lines 167-172); no
  other state is touched.
* `ping`: sends `pong` (lines 174-179).
* any other `type` value: silently ignored.
* invalid JSON: `json.JSONDecodeError` is caught and the error reply sent
  (lines 181-186).
* valid JSON that is not an object: `data.get` raises `AttributeError`,
  which falls to the catch-all `except Exception` (lines 187-188) that only
  prints — no reply is sent. -/
def handle_client_message (st : ServerState) (p : Payload) (now : ℕ) : HandleResult :=
  match p with
  | .notJson => ⟨st, [.error "Invalid JSON message" now], none⟩
  | .jsonNonObject => ⟨st, [], none⟩
  | .jsonObject type_ src freq =>
    if type_ = some "subscribe" then
      let source := src.getD "stock"
      let frequency := freq.getD 500
      let gens := if source ∈ st.data_generators then st.data_generators
                  else st.data_generators ++ [source]
      ⟨⟨st.clients, gens⟩, [.subscribed source frequency now], some (source, frequency)⟩
    else if type_ = some "unsubscribe" then
      ⟨st, [.unsubscribed now], none⟩
    else if type_ = some "ping" then
      ⟨st, [.pong now], none⟩
    else
      ⟨st, [], none⟩

/-- The loop condition of `start_streaming`'s data loop (line 204:
`while websocket in self.clients`): whether the next iteration delivers a
data message to session `ws` under server state `st`. -/
def dispatcher_delivers (st : ServerState) (ws : ℕ) : Bool := ws ∈ st.clients

/-- The data messages the `start_streaming` loop (lines 202-214) delivers to
session `ws` over the iterations whose timestamps are `ticks`, under a server
state that does not change during those iterations: one `data` message per
iteration for as long as `ws` is in the registry. -/
def streaming_data (st : ServerState) (ws : ℕ) (source : String) (ticks : List ℕ) :
    List OutMsg :=
  if ws ∈ st.clients then ticks.map (fun t => OutMsg.data source t) else []

/-- The full message sequence a session receives from one inbound payload:
the handler's immediate replies, followed by the data messages of the
streaming loop when the `subscribe` branch entered it. -/
def session_messages (st : ServerState) (ws : ℕ) (p : Payload) (now : ℕ)
    (ticks : List ℕ) : List OutMsg :=
  let r := handle_client_message st p now
  r.sent ++ (match r.streaming with
             | some (source, _) => streaming_data r.state ws source ticks
             | none => [])

/-- Python `set.remove` as used on the registry (line 147,
`self.clients.remove(websocket)`): raises `KeyError` when the element is not
present. -/
def set_remove (s : Finset ℕ) (x : ℕ) : Except PyErr (Finset ℕ) :=
  if x ∈ s then .ok (s.erase x) else .error .keyError

/-- One tick of `broadcast_server_stats` (lines 219-246) with a non-empty
check: builds the stats message once with `clients_connected = len(self.clients)`
(line 227), attempts delivery to every client in the registry (lines 236-241;
`ok c` tells whether the send to `c` succeeds), and removes the failed ones
(line 244, `self.clients -= disconnected`).  Returns the message attempted to
each session (`none` for sessions not in the registry) and the registry after
the cleanup. -/
def broadcast_tick (clients : Finset ℕ) (ok : ℕ → Bool) (now : ℕ) :
    (ℕ → Option OutMsg) × Finset ℕ :=
  if clients = ∅ then (fun _ => none, clients)
  else
    ((fun c => if c ∈ clients then some (OutMsg.server_stats clients.card now) else none),
     clients.filter (fun c => ok c))

/-- `register_client`'s identifier assignment (lines 121-122):
`self.clients.add(websocket)` then `client_id = f"client_{len(self.clients)}"`.
Returns the registry after the insert and the assigned identifier. -/
def register_client_id (clients : Finset ℕ) (ws : ℕ) : Finset ℕ × String :=
  let cs := insert ws clients
  (cs, "client_" ++ toString cs.card)

/-- Connection-lifecycle events for a run of the connection handler. -/
inductive Event where
  | connect (ws : ℕ)
  | disconnect (ws : ℕ)
  deriving DecidableEq, Repr

/-- Registry plus the identifiers handed out so far. -/
structure RegistryState where
  clients : Finset ℕ
  ids : List (ℕ × String)
  deriving DecidableEq

/-- One lifecycle step: `connect` runs the identifier assignment of
`register_client` (lines 121-122) and records the assigned id; `disconnect`
removes the session from the registry (line 147; the session is live when the
handler's `finally` runs in this run, so the removal succeeds). -/
def lifecycle_step (st : RegistryState) (ev : Event) : RegistryState :=
  match ev with
  | .connect ws =>
    let r := register_client_id st.clients ws
    { clients := r.1, ids := st.ids ++ [(ws, r.2)] }
  | .disconnect ws => { st with clients := st.clients.erase ws }

/-- A run of connection-lifecycle events from an empty registry. -/
def lifecycle_run (evs : List Event) : RegistryState :=
  evs.foldl lifecycle_step ⟨∅, []⟩

/-! ## Theorems -/

/-- Whatever `fields_loop` returns, the generator state after a
`generate_data_point` call carries trend `trend_update g.trend e.trendDelta`
(lines 73-74 run before the per-field loop). -/
lemma generate_data_point_trend (g : DataGenerator) (e : Entropy) :
    ((generate_data_point g e).1).trend = trend_update g.trend e.trendDelta := by
  unfold generate_data_point
  dsimp only
  split <;> rfl

/-- The clamped trend always lands in the band [-0.005, 0.005]. -/
lemma trend_update_mem_band (t d : ℚ) :
    -5/1000 ≤ trend_update t d ∧ trend_update t d ≤ 5/1000 := by
  unfold trend_update
  exact ⟨le_max_left _ _, max_le (by norm_num) (min_le_left _ _)⟩

/-- C1: the claim says `generate_data_point` computes
`seasonal = 0.1 * sin(now_seconds / 3600)` and never raises.  In the code the
seasonal term is written `random.sin(time.time() / 3600)` (line 85), and the
`random` module has no `sin` attribute, so every call on a generator built by
`__init__` (whose `base_values` is never empty) raises `AttributeError`
instead of producing a data point. -/
theorem C1_generate_data_point_always_raises (source_type : String) (u : ℕ → ℚ)
    (t0 : ℚ) (e : Entropy) :
    (generate_data_point (DataGenerator.init source_type u t0) e).2 =
      Except.error PyErr.attributeError := by
  unfold DataGenerator.init generate_data_point init_base_values
  split_ifs <;> rfl

/-- C4: starting from the `__init__` range `trend ∈ [-0.001, 0.001]`, the
stored trend after any number of `generate_data_point` calls (each of which
adds the uniform draw and clamps, lines 73-74) remains within
[-0.005, 0.005]. -/
theorem C4_trend_band_invariant (g : DataGenerator) (es : List Entropy)
    (h1 : -1/1000 ≤ g.trend) (h2 : g.trend ≤ 1/1000) :
    -5/1000 ≤ (generator_run g es).trend ∧ (generator_run g es).trend ≤ 5/1000 := by
  have key : ∀ (l : List Entropy) (g0 : DataGenerator),
      -5/1000 ≤ g0.trend → g0.trend ≤ 5/1000 →
      -5/1000 ≤ (generator_run g0 l).trend ∧ (generator_run g0 l).trend ≤ 5/1000 := by
    intro l
    induction l with
    | nil => intro g0 ha hb; exact ⟨ha, hb⟩
    | cons e rest ih =>
      intro g0 _ _
      have hstep := generate_data_point_trend g0 e
      have hmem := trend_update_mem_band g0.trend e.trendDelta
      have hrun : generator_run g0 (e :: rest) =
          generator_run ((generate_data_point g0 e).1) rest := rfl
      rw [hrun]
      exact ih _ (by rw [hstep]; exact hmem.1) (by rw [hstep]; exact hmem.2)
  exact key es g (by linarith) (by linarith)

/-- Witness for C4 at a concrete generator and one concrete entropy draw. -/
theorem C4_trend_band_invariant_witness :
    -5/1000 ≤ (generator_run (DataGenerator.init "stock" (fun _ => 0) 0)
        [⟨1/10000, 0, fun _ => 0, 0, 0⟩]).trend ∧
      (generator_run (DataGenerator.init "stock" (fun _ => 0) 0)
        [⟨1/10000, 0, fun _ => 0, 0, 0⟩]).trend ≤ 5/1000 :=
  C4_trend_band_invariant (DataGenerator.init "stock" (fun _ => 0) 0)
    [⟨1/10000, 0, fun _ => 0, 0, 0⟩] (by norm_num [DataGenerator.init])
    (by norm_num [DataGenerator.init])

/-- The clamp keeps a temperature value in [-50, 60]. -/
lemma clamp_temperature_bounds (b x : ℚ) :
    -50 ≤ clamp_policy "temperature" b x ∧ clamp_policy "temperature" b x ≤ 60 := by
  unfold clamp_policy
  split_ifs with h1 h2 h3
  · exact absurd h1.1 (by decide)
  · rcases h2.1 with h | h <;> exact absurd h (by decide)
  · exact ⟨le_max_left _ _, max_le (by norm_num) (min_le_left _ _)⟩
  · push_neg at h3
    have := h3 rfl
    push_neg at this
    exact ⟨this.1, this.2⟩

/-- The clamp keeps a humidity or dominance value in [0, 100]. -/
lemma clamp_percent_bounds (key : String) (hk : key = "humidity" ∨ key = "dominance")
    (b x : ℚ) : 0 ≤ clamp_policy key b x ∧ clamp_policy key b x ≤ 100 := by
  unfold clamp_policy
  split_ifs with h1 h2 h3
  · rcases hk with hk | hk <;> rw [hk] at h1 <;> exact absurd h1.1 (by decide)
  · exact ⟨le_max_left _ _, max_le (by norm_num) (min_le_left _ _)⟩
  · rcases hk with hk | hk <;> rw [hk] at h3 <;> exact absurd h3.1 (by decide)
  · push_neg at h2
    have := h2 hk
    push_neg at this
    exact ⟨this.1, this.2⟩

/-- The clamp keeps a price value nonnegative when the prior base is. -/
lemma clamp_price_nonneg (b x : ℚ) (hb : 0 ≤ b) : 0 ≤ clamp_policy "price" b x := by
  unfold clamp_policy
  split_ifs with h1 h2 h3
  · nlinarith [h1.2]
  · exact le_max_left _ _
  · exact absurd h3.1 (by decide)
  · push_neg at h1
    exact h1 rfl

/-- C2: the clamp policy of lines 89-95, field by field: a `price` value that
would go negative is floored at 10% of the prior base; fields other than
`price`, `humidity`, `dominance`, `temperature` are never clamped; every
emitted `temperature` value lies in [-50, 60], every emitted `humidity` and
`dominance` value in [0, 100], and the emitted `price` is never negative when
the prior base is nonnegative (as every `__init__` start value for `price`
range is, so by induction along a run it always is). -/
theorem C2_clamp_policy (key : String) (b t s n : ℚ) :
    (b * (1 + t + s + n) < 0 → (next_value "price" b t s n).2 = b * (1/10)) ∧
    (key ≠ "price" → key ≠ "humidity" → key ≠ "dominance" → key ≠ "temperature" →
      (next_value key b t s n).2 = b * (1 + t + s + n)) ∧
    (-50 ≤ (next_value "temperature" b t s n).1 ∧
      (next_value "temperature" b t s n).1 ≤ 60) ∧
    (0 ≤ (next_value "humidity" b t s n).1 ∧ (next_value "humidity" b t s n).1 ≤ 100) ∧
    (0 ≤ (next_value "dominance" b t s n).1 ∧
      (next_value "dominance" b t s n).1 ≤ 100) ∧
    (0 ≤ b → 0 ≤ (next_value "price" b t s n).1) := by
  refine ⟨?_, ?_, ?_, ?_, ?_, ?_⟩
  · intro hneg
    show clamp_policy "price" b (b * (1 + t + s + n)) = b * (1/10)
    unfold clamp_policy
    rw [if_pos ⟨rfl, hneg⟩]
  · intro hp hh hd ht
    show clamp_policy key b (b * (1 + t + s + n)) = b * (1 + t + s + n)
    unfold clamp_policy
    split_ifs with h1 h2 h3
    · exact absurd h1.1 hp
    · rcases h2.1 with h | h
      · exact absurd h hh
      · exact absurd h hd
    · exact absurd h3.1 ht
    · rfl
  · have hc := clamp_temperature_bounds b (b * (1 + t + s + n))
    constructor
    · have := le_round2 (n := -50) (by exact_mod_cast hc.1)
      exact_mod_cast this
    · have := round2_le (n := 60) (by exact_mod_cast hc.2)
      exact_mod_cast this
  · have hc := clamp_percent_bounds "humidity" (Or.inl rfl) b (b * (1 + t + s + n))
    constructor
    · have := le_round2 (n := 0) (by exact_mod_cast hc.1)
      exact_mod_cast this
    · have := round2_le (n := 100) (by exact_mod_cast hc.2)
      exact_mod_cast this
  · have hc := clamp_percent_bounds "dominance" (Or.inr rfl) b (b * (1 + t + s + n))
    constructor
    · have := le_round2 (n := 0) (by exact_mod_cast hc.1)
      exact_mod_cast this
    · have := round2_le (n := 100) (by exact_mod_cast hc.2)
      exact_mod_cast this
  · intro hb
    have hc := clamp_price_nonneg b (b * (1 + t + s + n)) hb
    have := le_round2 (n := 0) (by exact_mod_cast hc)
    exact_mod_cast this

/-- Witness for C2: each hypothesis of the policy theorem discharged at a
concrete input. -/
theorem C2_clamp_policy_witness :
    (next_value "price" 100 0 0 (-2)).2 = 100 * (1/10) ∧
    (next_value "volume" 100 (1/10) 0 0).2 = 100 * (1 + 1/10 + 0 + 0) ∧
    -50 ≤ (next_value "temperature" 1000 0 0 0).1 ∧
    0 ≤ (next_value "humidity" 200 0 0 0).1 ∧
    0 ≤ (next_value "dominance" 200 0 0 0).1 ∧
    0 ≤ (next_value "price" 100 0 0 (-2)).1 :=
  ⟨(C2_clamp_policy "volume" 100 0 0 (-2)).1 (by norm_num),
   (C2_clamp_policy "volume" 100 (1/10) 0 0).2.1 (by decide) (by decide) (by decide)
     (by decide),
   (C2_clamp_policy "volume" 1000 0 0 0).2.2.1.1,
   (C2_clamp_policy "volume" 200 0 0 0).2.2.2.1.1,
   (C2_clamp_policy "volume" 200 0 0 0).2.2.2.2.1.1,
   (C2_clamp_policy "volume" 100 0 0 (-2)).2.2.2.2.2 (by norm_num)⟩

/-- Fields named `volume` match none of the clamp cases (lines 90-95), so the
clamp leaves them unchanged. -/
lemma clamp_policy_volume (b x : ℚ) : clamp_policy "volume" b x = x := by
  unfold clamp_policy
  split_ifs with h1 h2 h3
  · exact absurd h1.1 (by decide)
  · rcases h2.1 with h | h <;> exact absurd h (by decide)
  · exact absurd h3.1 (by decide)
  · rfl

/-- C3 counterexample: the claim says the rounded output is also the new
stored base; at base 100, trend 0, seasonal 0, noise 1/3000 the unclamped new
value is 3001/30 = 100.0333..., the emitted value is its 2-decimal rounding
100.03, and the stored base is the unrounded 3001/30 — the two differ. -/
theorem C3_output_ne_stored_base :
    (next_value "volume" 100 0 0 (1/3000)).1 ≠ (next_value "volume" 100 0 0 (1/3000)).2 := by
  have hval : (next_value "volume" 100 0 0 (1/3000)).2 = 3001/30 := by
    show clamp_policy "volume" 100 (100 * (1 + 0 + 0 + 1/3000)) = 3001/30
    rw [clamp_policy_volume]
    norm_num
  have hr : (next_value "volume" 100 0 0 (1/3000)).1 =
      round2 ((next_value "volume" 100 0 0 (1/3000)).2) := rfl
  rw [hval] at hr
  rw [round2_eval_low (3001/30) 10003 (by norm_num) (by norm_num)] at hr
  rw [hr, hval]
  norm_num

/-- C3 amended: `next_value` returns the new (clamped) value rounded to 2
decimal places (line 97), but the stored base for the next call is the
unrounded new value (line 98); whenever the new value is not already an exact
2-decimal quantity the output and the stored base differ. -/
theorem C3_output_rounded_stored_unrounded (key : String) (b t s n : ℚ) :
    (next_value key b t s n).1 = round2 ((next_value key b t s n).2) ∧
    (next_value key b t s n).2 = clamp_policy key b (b * (1 + t + s + n)) ∧
    (round2 ((next_value key b t s n).2) ≠ (next_value key b t s n).2 →
      (next_value key b t s n).1 ≠ (next_value key b t s n).2) :=
  ⟨rfl, rfl, fun h => h⟩

/-- Witness for C3's amended theorem at a concrete input where the new value
has more than 2 decimals. -/
theorem C3_output_rounded_stored_unrounded_witness :
    (next_value "volume" 100 0 0 (1/300)).1 ≠ (next_value "volume" 100 0 0 (1/300)).2 :=
  (C3_output_rounded_stored_unrounded "volume" 100 0 0 (1/300)).2.2 (by
    have hval : (next_value "volume" 100 0 0 (1/300)).2 = 301/3 := by
      show clamp_policy "volume" 100 (100 * (1 + 0 + 0 + 1/300)) = 301/3
      rw [clamp_policy_volume]
      norm_num
    rw [hval, round2_eval_low (301/3) 10033 (by norm_num) (by norm_num)]
    norm_num)

/-- C5: the claim says an inbound `unsubscribe` cancels the session's active
dispatcher and that afterwards no further data messages are delivered.  In
the code the `unsubscribe` branch (lines 167-172) only sends the
`unsubscribed` reply: the server state is untouched, and the streaming loop's
condition `websocket in self.clients` (line 204) still holds afterwards, so
the next loop iteration still delivers a data message to the session. -/
theorem C5_unsubscribe_does_not_stop_streaming :
    handle_client_message ⟨{1}, ["stock"]⟩
        (Payload.jsonObject (some "unsubscribe") none none) 7 =
      ⟨⟨{1}, ["stock"]⟩, [OutMsg.unsubscribed 7], none⟩ ∧
    dispatcher_delivers
        (handle_client_message ⟨{1}, ["stock"]⟩
          (Payload.jsonObject (some "unsubscribe") none none) 7).state 1 = true ∧
    streaming_data
        (handle_client_message ⟨{1}, ["stock"]⟩
          (Payload.jsonObject (some "unsubscribe") none none) 7).state 1 "stock" [8] =
      [OutMsg.data "stock" 8] := by
  refine ⟨rfl, ?_, ?_⟩ <;> decide

/-- C6 counterexample: a payload that is valid JSON but not an object (so
`data.get("type")` raises `AttributeError`, caught by the catch-all
`except Exception` of lines 187-188, which only prints) produces no reply at
all — in particular no `error` reply, refuting the claim that every payload
failing to parse as the expected structure is answered with an `error`
message. -/
theorem C6_non_object_payload_gets_no_reply :
    (handle_client_message ⟨{1}, []⟩ Payload.jsonNonObject 3).sent = [] := rfl

/-- C6 amended: a payload that is not valid JSON is answered with
`{"type":"error", "Invalid JSON message", timestamp}` and causes no state
change; a payload that is valid JSON but not an object of the expected shape
is swallowed by the catch-all handler with no reply and no state change; in
both cases the connection stays open (the handler returns normally and no
streaming loop is entered). -/
theorem C6_malformed_payload_handling (st : ServerState) (now : ℕ) :
    handle_client_message st Payload.notJson now =
      ⟨st, [OutMsg.error "Invalid JSON message" now], none⟩ ∧
    handle_client_message st Payload.jsonNonObject now = ⟨st, [], none⟩ :=
  ⟨rfl, rfl⟩

/-- C7: the claim says removing a session that is no longer in the registry
is a no-op and never an error.  The connection handler's cleanup (line 147)
uses `set.remove`, which raises `KeyError` on an absent element; in the
interleaving where the stats broadcaster's failed-delivery cleanup
(line 244) already removed the session, the handler's own removal then
raises. -/
theorem C7_remove_absent_session_raises :
    (broadcast_tick {1} (fun _ => false) 0).2 = ∅ ∧
    set_remove ((broadcast_tick {1} (fun _ => false) 0).2) 1 =
      Except.error PyErr.keyError := by
  have h1 : (broadcast_tick {1} (fun _ => false) 0).2 = ∅ := by decide
  refine ⟨h1, ?_⟩
  rw [h1]
  rfl

/-- C8: for every inbound `subscribe`, the effective source defaults to
`"stock"` and the effective frequency to 500 when unset (lines 157-158), and
the session's message sequence is exactly the `subscribed` acknowledgment
carrying the effective values followed by the streaming loop's data messages
— so the acknowledgment precedes the first data message. -/
theorem C8_subscribe_defaults_and_ack_before_data (st : ServerState) (ws : ℕ)
    (src : Option String) (freq : Option ℤ) (now : ℕ) (ticks : List ℕ) :
    session_messages st ws (Payload.jsonObject (some "subscribe") src freq) now ticks =
      OutMsg.subscribed (src.getD "stock") (freq.getD 500) now ::
        (if ws ∈ st.clients then
          ticks.map (fun t => OutMsg.data (src.getD "stock") t)
         else []) := by
  rfl

/-- C9: on a tick with a non-empty registry, every registered session is sent
one `server_stats` message whose `clients_connected` is the registry size —
the same stats object, built once at line 223-233, goes to all recipients —
sessions outside the registry get nothing, and the sessions whose delivery
failed are exactly the ones removed by the cleanup (line 244). -/
theorem C9_broadcast_stats_uniform (clients : Finset ℕ) (ok : ℕ → Bool) (now : ℕ)
    (h : clients ≠ ∅) :
    (∀ c ∈ clients, (broadcast_tick clients ok now).1 c =
        some (OutMsg.server_stats clients.card now)) ∧
    (∀ c ∉ clients, (broadcast_tick clients ok now).1 c = none) ∧
    (broadcast_tick clients ok now).2 = clients.filter (fun c => ok c) := by
  unfold broadcast_tick
  rw [if_neg h]
  refine ⟨?_, ?_, rfl⟩
  · intro c hc
    simp [hc]
  · intro c hc
    simp [hc]

/-- Witness for C9 at the registry {1, 2} where delivery to session 2
fails. -/
theorem C9_broadcast_stats_uniform_witness :
    (broadcast_tick {1, 2} (fun c => decide (c = 1)) 5).1 1 =
      some (OutMsg.server_stats (({1, 2} : Finset ℕ).card) 5) :=
  (C9_broadcast_stats_uniform {1, 2} (fun c => decide (c = 1)) 5 (by decide)).1 1
    (by decide)

/-- C10: the identifier assigned at connect is `"client_"` followed by the
registry size just after the insert (lines 121-122); identifiers are reused
after disconnects, and the run connect 1, connect 2, disconnect 1, connect 3
leaves sessions 2 and 3 simultaneously live and both named `"client_2"`. -/
theorem C10_client_id_from_registry_size :
    (∀ (clients : Finset ℕ) (ws : ℕ),
        register_client_id clients ws =
          (insert ws clients, "client_" ++ toString (insert ws clients).card)) ∧
    (2 ∈ (lifecycle_run
        [Event.connect 1, Event.connect 2, Event.disconnect 1, Event.connect 3]).clients ∧
     3 ∈ (lifecycle_run
        [Event.connect 1, Event.connect 2, Event.disconnect 1, Event.connect 3]).clients ∧
     (2, "client_2") ∈ (lifecycle_run
        [Event.connect 1, Event.connect 2, Event.disconnect 1, Event.connect 3]).ids ∧
     (3, "client_2") ∈ (lifecycle_run
        [Event.connect 1, Event.connect 2, Event.disconnect 1, Event.connect 3]).ids ∧
     (2 : ℕ) ≠ 3) := by
  refine ⟨fun clients ws => rfl, ?_⟩
  decide
